import Mathlib

/-!
Verification development for the sdap-nexus tile data-access layer.

The definitions below are a shallow embedding of the Python sources:
* `src/data-access/nexustiles/dao/CassandraProxy.py`
  (`NexusTileData.get_lat_lon_time_data_meta`, `NexusTileData._to_standard_index`,
   `CassandraProxy.fetch_nexus_tiles`)
* `src/data-access/nexustiles/backends/cog/SolrProxy.py`
  (`SolrProxy.__init__`, `find_tiffs_in_date_range`, `date_range_for_dataset`)
* `src/data-access/nexustiles/backends/cog/backend.py`
  (`CoGBackend.find_tile_by_id`, `find_tiles_by_id`, `__to_url`)

Numeric values are modelled as integers: none of the properties under study
involve floating-point arithmetic, only placement, masking, shapes, ordering
and equality.  A stored float that is non-finite (NaN / Inf, the values that
`np.ma.masked_invalid` masks) is modelled by `none`.
-/

/-- A raw stored scalar.  `none` models a non-finite float (NaN/Inf). -/
abbrev RawVal := Option ℤ

/-- One cell of a numpy masked array: a value plus its mask flag
(`mask = true` means the cell is invalid / not backed by an observation). -/
structure Cell where
  val : ℤ
  mask : Bool
deriving DecidableEq

instance : Inhabited Cell := ⟨⟨0, true⟩⟩

/-- The cell of an all-masked (`np.ma.masked_all`) array. -/
def maskedCell : Cell := ⟨0, true⟩

/-- `np.ma.masked_invalid` on one scalar: non-finite values become masked. -/
def maskInvalid : RawVal → Cell
  | some q => ⟨q, false⟩
  | none => ⟨0, true⟩

/-- A raw stored n-dimensional array (the decoded form of a protobuf
`shaped_array`): a shape and the C-order flattened payload. -/
structure RawND where
  shape : List ℕ
  flat : List RawVal
deriving DecidableEq

/-- A masked n-dimensional array (shape plus C-order flattened cells). -/
structure MaskedND where
  shape : List ℕ
  flat : List Cell
deriving DecidableEq

/-- `np.ma.masked_invalid` applied elementwise to a stored array. -/
def maskMI (a : RawND) : MaskedND := ⟨a.shape, a.flat.map maskInvalid⟩

/-- numpy `.reshape(-1)`: flatten to one dimension. -/
def reshapeFlat (a : MaskedND) : MaskedND := ⟨[a.flat.length], a.flat⟩

/-- Python errors raised (or named by the spec) in the embedded code paths. -/
inductive PyError where
  | typeError
  | valueError
  | indexError
  | notImplementedError
  | corruptTileError
  | notFoundError
deriving DecidableEq

/-- Python `len()` of an ndarray: the leading dimension; raises `TypeError`
on a 0-d array. -/
def pyLenM (a : MaskedND) : Except PyError ℕ :=
  match a.shape with
  | [] => .error .typeError
  | n :: _ => .ok n

/-- An output array of the reconstruction: its shape together with a cell
lookup by (multi-)index.  Only in-bounds indices are meaningful. -/
structure OutArray where
  shape : List ℕ
  cell : List ℕ → Cell

instance : Inhabited OutArray := ⟨⟨[], fun _ => maskedCell⟩⟩

/-- C-order flat index of a multi-index in a given shape. -/
def cIndex : List ℕ → List ℕ → ℕ
  | _ :: ds, i :: is => i * ds.prod + cIndex ds is
  | _, _ => 0

/-- The tuple returned by `NexusTileData.get_lat_lon_time_data_meta`. -/
structure TileTuple where
  latitudes : MaskedND
  longitudes : MaskedND
  times : List Cell
  data : OutArray
  meta : List (String × OutArray)

instance : Inhabited TileTuple :=
  ⟨⟨⟨[], []⟩, ⟨[], []⟩, [], default, []⟩⟩

/-- The `grid_tile` message: 1-D latitude/longitude axes, a scalar time, the
variable data array and named auxiliary (meta) arrays. -/
structure GridTile where
  latitude : RawND
  longitude : RawND
  time : ℤ
  variable_data : RawND
  meta_data : List (String × RawND)

/-- The `swath_tile` message: per-observation latitude/longitude/time arrays,
the variable data array and named auxiliary (meta) arrays. -/
structure SwathTile where
  latitude : RawND
  longitude : RawND
  time : RawND
  variable_data : RawND
  meta_data : List (String × RawND)

/-- The `time_series_tile` message. -/
structure TimeSeriesTile where
  latitude : RawND
  longitude : RawND
  time : RawND
  variable_data : RawND
  meta_data : List (String × RawND)

/-- The stored `TileData` protobuf message as read back by `HasField`:
each of the three encodings may or may not be present. -/
structure TileData where
  grid_tile : Option GridTile
  swath_tile : Option SwathTile
  time_series_tile : Option TimeSeriesTile

/-- `np.min` over a 1-D masked array: the minimum of the unmasked entries,
the `masked` constant when every entry is masked, and an error on a
zero-size array. -/
def npMinMasked (l : List Cell) : Except PyError Cell :=
  if l.isEmpty then .error .valueError
  else
    match (l.filter (fun c => !c.mask)).map Cell.val with
    | [] => .ok maskedCell
    | q :: qs => .ok ⟨qs.foldl min q, false⟩

/-- The swath branch's time simplification:
`if np.all(time_data == np.min(time_data)): time_data = np.array([np.min(time_data)])`.
Masked entries compare as masked (which `np.all` treats as true); when every
entry is masked the `np.all` result is the falsy `masked` constant, so no
collapse happens. -/
def collapseTime (times : List Cell) : Except PyError (List Cell) :=
  match npMinMasked times with
  | .error e => .error e
  | .ok m =>
    if m.mask then .ok times
    else if times.all (fun c => c.mask || c.val == m.val) then .ok [⟨m.val, false⟩]
    else .ok times

/-- Value written onto the diagonal by `_to_standard_index`: the flattened
source array broadcast over the `d1` diagonal slots (`S` is the source size;
numpy broadcasting requires `S = d1` or `S = 1`). -/
def tsiCell (flat : List Cell) (S d1 i : ℕ) : Cell :=
  if S = d1 then flat.getD i maskedCell else flat.getD 0 maskedCell

/-- `NexusTileData._to_standard_index(data_array, desired_shape)`.
`row, col = np.indices(data_array.shape)` requires a 2-D source array, and
`data_array[row.flat, col.flat]` is then its C-order flattening.  In both
branches the flattened source is written (with its mask) onto
`np.diag_indices(desired_shape[1], ndim)` of an all-masked array; the first
branch then prepends a length-1 time axis.  Fancy indexing bounds and numpy
broadcasting of the right-hand side are checked as numpy does. -/
def to_standard_index (da : MaskedND) (d0 d1 d2 : ℕ) : Except PyError OutArray :=
  if da.shape.length = 2 then
    let S := da.flat.length
    if d0 = 1 then
      if d1 ≤ d2 then
        if S = d1 ∨ S = 1 then
          .ok ⟨[1, d1, d2], fun idx =>
            match idx with
            | [_, i, j] => if i = j ∧ i < d1 then tsiCell da.flat S d1 i else maskedCell
            | _ => maskedCell⟩
        else .error .valueError
      else .error .indexError
    else
      if d1 ≤ d0 ∧ d1 ≤ d2 then
        if S = d1 ∨ S = 1 then
          .ok ⟨[d0, d1, d2], fun idx =>
            match idx with
            | [t, i, j] => if t = i ∧ i = j ∧ i < d1 then tsiCell da.flat S d1 i else maskedCell
            | _ => maskedCell⟩
        else .error .valueError
      else .error .indexError
  else .error .valueError

/-- The grid branch's treatment of a decoded array: mask invalid entries and,
for a 2-D array, add a leading time axis of length 1
(`grid_tile_data = grid_tile_data[np.newaxis, :]`). -/
def gridOut (v : RawND) : OutArray :=
  let shape := if v.shape.length = 2 then 1 :: v.shape else v.shape
  ⟨shape, fun idx => maskInvalid (v.flat.getD (cIndex shape idx) none)⟩

/-- The grid branch of `get_lat_lon_time_data_meta`. -/
def decodeGrid (g : GridTile) : Except PyError TileTuple :=
  .ok ⟨maskMI g.latitude, maskMI g.longitude, [⟨g.time, false⟩],
    gridOut g.variable_data,
    g.meta_data.map (fun p => (p.1, gridOut p.2))⟩

/-- The swath branch's meta-data loop: each auxiliary array goes through
`_to_standard_index` with the shape of the already-built `tile_data`. -/
def swathMeta : List (String × RawND) → ℕ → ℕ → ℕ → Except PyError (List (String × OutArray))
  | [], _, _, _ => .ok []
  | (n, m) :: rest, d0, d1, d2 =>
    match to_standard_index (maskMI m) d0 d1 d2 with
    | .error e => .error e
    | .ok out =>
      match swathMeta rest d0 d1 d2 with
      | .error e => .error e
      | .ok outs => .ok ((n, out) :: outs)

/-- The swath branch of `get_lat_lon_time_data_meta`. -/
def decodeSwath (s : SwathTile) : Except PyError TileTuple :=
  let lat := reshapeFlat (maskMI s.latitude)
  let lon := reshapeFlat (maskMI s.longitude)
  let time0 := reshapeFlat (maskMI s.time)
  match collapseTime time0.flat with
  | .error e => .error e
  | .ok time_data =>
    match to_standard_index (maskMI s.variable_data) time_data.length lat.flat.length lon.flat.length with
    | .error e => .error e
    | .ok tile_data =>
      match swathMeta s.meta_data time_data.length lat.flat.length lon.flat.length with
      | .error e => .error e
      | .ok meta => .ok ⟨lat, lon, time_data, tile_data, meta⟩

/-- Broadcast of the right-hand side of `reshaped_array[:, idx, idx] = src`
onto the selection shape `(T, N)`, following numpy assignment broadcasting:
leading dimensions of size 1 are squeezed, the remaining shape must be `()`,
`(b)` with `b = N`, or `(a, b)` with `a = T` and `b ∈ {N, 1}`. -/
def broadcastTo2 (src : MaskedND) (T N : ℕ) : Except PyError (ℕ → ℕ → Cell) :=
  match src.shape.dropWhile (fun d => d == 1) with
  | [] => .ok (fun _ _ => src.flat.getD 0 maskedCell)
  | [b] =>
    if b = N then .ok (fun _ k => src.flat.getD k maskedCell)
    else .error .valueError
  | [a, b] =>
    if a = T ∧ (b = N ∨ b = 1) then
      .ok (fun t k => src.flat.getD (t * b + (if b = 1 then 0 else k)) maskedCell)
    else .error .valueError
  | _ => .error .valueError

/-- The `(len(time), len(lat), len(lon))` all-masked array with the broadcast
source assigned (value and mask) at `[:, k, k]` for `k < I`. -/
def diag3 (T I J : ℕ) (bc : ℕ → ℕ → Cell) : OutArray :=
  ⟨[T, I, J], fun idx =>
    match idx with
    | [t, i, j] => if i = j ∧ i < I then bc t i else maskedCell
    | _ => maskedCell⟩

/-- The time-series branch's meta-data loop: each auxiliary array is assigned
onto the diagonal of a fresh all-masked array of the same dimensions. -/
def tsMeta : List (String × RawND) → ℕ → ℕ → ℕ → Except PyError (List (String × OutArray))
  | [], _, _, _ => .ok []
  | (n, m) :: rest, T, nLat, nLon =>
    match broadcastTo2 (maskMI m) T nLat with
    | .error e => .error e
    | .ok bc =>
      match tsMeta rest T nLat nLon with
      | .error e => .error e
      | .ok outs => .ok ((n, diag3 T nLat nLon bc) :: outs)

/-- The time-series branch of `get_lat_lon_time_data_meta`.
`idx = np.arange(len(latitude_data))` must stay in bounds on the longitude
axis of the `(len(time), len(lat), len(lon))` allocation, hence the
`nLat ≤ nLon` bounds check of the fancy-indexed assignment. -/
def decodeTimeSeries (t : TimeSeriesTile) : Except PyError TileTuple :=
  let tsdata := maskMI t.variable_data
  let time_data := reshapeFlat (maskMI t.time)
  let lat := maskMI t.latitude
  let lon := maskMI t.longitude
  match pyLenM lat with
  | .error e => .error e
  | .ok nLat =>
    match pyLenM lon with
    | .error e => .error e
    | .ok nLon =>
      let T := time_data.flat.length
      if nLat ≤ nLon then
        match broadcastTo2 tsdata T nLat with
        | .error e => .error e
        | .ok bc =>
          match tsMeta t.meta_data T nLat nLon with
          | .error e => .error e
          | .ok meta => .ok ⟨lat, lon, time_data.flat, diag3 T nLat nLon bc, meta⟩
      else .error .indexError

/-- `NexusTileData.get_lat_lon_time_data_meta`: dispatch on `HasField` in the
source's order (`grid_tile`, then `swath_tile`, then `time_series_tile`),
raising `NotImplementedError` when none of the three fields is present. -/
def get_lat_lon_time_data_meta (td : TileData) : Except PyError TileTuple :=
  match td.grid_tile with
  | some g => decodeGrid g
  | none =>
    match td.swath_tile with
    | some s => decodeSwath s
    | none =>
      match td.time_series_tile with
      | some t => decodeTimeSeries t
      | none => .error .notImplementedError

/-- An argument passed to `CassandraProxy.fetch_nexus_tiles`.  The source's
list comprehension keeps only arguments satisfying
`isinstance(tile_id, str) or isinstance(tile_id, unicode)`; any other object
(e.g. a `uuid.UUID`) is dropped.  Both constructors carry the tile id the
argument denotes. -/
inductive TileIdArg where
  | str (s : String)
  | nonStr (s : String)
deriving DecidableEq

/-- Whether the argument passes the source's `isinstance` string filter. -/
def TileIdArg.isStr : TileIdArg → Bool
  | .str _ => true
  | .nonStr _ => false

/-- The tile id denoted by the argument. -/
def TileIdArg.idStr : TileIdArg → String
  | .str s => s
  | .nonStr s => s

/-- The Cassandra `sea_surface_temp` table: `tile_id` keyed blobs (the blob
payload is abstracted to a number). -/
abbrev TileStore := List (String × ℕ)

/-- `NexusTileData.objects.filter(tile_id=tile_id)`: all stored records with
the given id. -/
def tileFilterResults (store : TileStore) (tid : String) : List (String × ℕ) :=
  store.filter (fun p => p.1 == tid)

/-- The fetch loop of `fetch_nexus_tiles`: for each id, if the filter result
is non-empty append its first record. -/
def fetchLoop (store : TileStore) : List String → List (String × ℕ)
  | [] => []
  | tid :: rest =>
    match tileFilterResults store tid with
    | [] => fetchLoop store rest
    | r :: _ => r :: fetchLoop store rest

/-- `CassandraProxy.fetch_nexus_tiles(*tile_ids)`:
`tile_ids = [uuid.UUID(str(t)) for t in tile_ids if isinstance(t, str) or isinstance(t, unicode)]`
followed by the per-id filter/append loop.  `uuid.UUID` parsing and
normalisation of a canonical id string (Python stdlib) is modelled as the
identity on the id string. -/
def fetch_nexus_tiles (store : TileStore) (args : List TileIdArg) : List (String × ℕ) :=
  let tile_ids := (args.filter TileIdArg.isStr).map TileIdArg.idStr
  fetchLoop store tile_ids

/-- Solr semantics of one `field:[lo TO hi]` range clause over an integer
time field (the embedding maps the ISO datetime strings of the query to
seconds since epoch, which is order-isomorphic). -/
def solrRange (lo hi v : ℤ) : Bool := lo ≤ v && v ≤ hi

/-- Solr semantics of the three-clause `fq` time filter built by
`SolrProxy.find_tiffs_in_date_range`.  The format string's six placeholders
receive `(start, end, start, end, start, end)`, so the clauses are
`min_time_dt:[start TO end] OR max_time_dt:[start TO end]
 OR (min_time_dt:[* TO start] AND max_time_dt:[end TO *])`
(the third is the containment condition `tmin ≤ start AND end ≤ tmax`),
evaluated on a tile with time interval `[tmin, tmax]`. -/
def find_tiffs_time_clause (start_t end_t tmin tmax : ℤ) : Bool :=
  solrRange start_t end_t tmin
  || solrRange start_t end_t tmax
  || (tmin ≤ start_t && end_t ≤ tmax)

/-- A Solr document of the COG dataset index, restricted to the time fields
used by `date_range_for_dataset` (datetimes modelled as seconds since epoch;
`convert_iso_to_datetime` is then the identity). -/
structure SolrDoc where
  min_time_dt : ℤ
  max_time_dt : ℤ
deriving DecidableEq

/-- Insertion step of the sort performed by the search backend (stable sort
by an integer key; a descending sort is an ascending sort on the negated
key). -/
def insertByKey (key : SolrDoc → ℤ) (x : SolrDoc) : List SolrDoc → List SolrDoc
  | [] => [x]
  | y :: ys => if key x ≤ key y then x :: y :: ys else y :: insertByKey key x ys

/-- Sort a document list ascending by an integer key. -/
def sortByKey (key : SolrDoc → ℤ) (l : List SolrDoc) : List SolrDoc :=
  l.foldr (insertByKey key) []

/-- Modelled from the spec: the base-class `SolrProxy.do_query` (code of this
repository that is not under the sources here) executes the filtered search
and returns the matching documents in the requested sort order, limited to
`rows` documents.  `key` models the single `sort` field and direction
(ascending by `key`; a `desc` field sort passes the negated field). -/
def do_query (docs : List SolrDoc) (key : SolrDoc → ℤ) (rows : ℕ) : List SolrDoc :=
  (sortByKey key docs).take rows

/-- Python `results[0]`: raises `IndexError` on an empty result list. -/
def pyIndex0 (l : List SolrDoc) : Except PyError SolrDoc :=
  match l with
  | [] => .error .indexError
  | d :: _ => .ok d

/-- `SolrProxy.date_range_for_dataset`: a `rows=1` query sorted
`max_time_dt desc` whose first document supplies `max_time`, then the same
query sorted `min_time_dt asc` whose first document supplies `min_time`.
`docs` are the dataset's indexed documents (the `dataset_s:{name}` filter is
applied by the store). -/
def date_range_for_dataset (docs : List SolrDoc) : Except PyError (ℤ × ℤ) :=
  match pyIndex0 (do_query docs (fun d => -d.max_time_dt) 1) with
  | .error e => .error e
  | .ok d1 =>
    let max_time := d1.max_time_dt
    match pyIndex0 (do_query docs (fun d => d.min_time_dt) 1) with
    | .error e => .error e
    | .ok d2 => .ok (d2.min_time_dt, max_time)

/-- The kind of the first positional argument of Python's built-in `super`. -/
inductive PyFirstArg where
  | typeArg
  | instanceArg

/-- Python built-in `super(x, y)`: the first argument must be a type; passing
an instance raises `TypeError`. -/
def pySuper (a : PyFirstArg) : Except PyError Unit :=
  match a with
  | .typeArg => .ok ()
  | .instanceArg => .error .typeError

/-- The constructed state of the COG `SolrProxy` (it would keep its config). -/
structure CogSolrProxyState where
  config : List (String × String)

/-- `SolrProxy.__init__(self, config)` of the COG backend: its first statement
is `super(self, config)` — the first argument is the instance `self`, not a
type. -/
def cog_SolrProxy_init (config : List (String × String)) : Except PyError CogSolrProxyState :=
  match pySuper .instanceArg with
  | .error e => .error e
  | .ok _ => .ok ⟨config⟩

/-- `CoGBackend.__to_url(dataset, **kwargs)`: the id-derivation step of the
COG creation path — it raises `NotImplementedError` for every input. -/
def cog_to_url (_dataset : String) (_kwargs : List (String × String)) : Except PyError String :=
  .error .notImplementedError

/-- A string is a COG tile id derived from the original creation path when
`__to_url` can produce it. -/
def isDerivedCoGId (s : String) : Prop := ∃ ds kw, cog_to_url ds kw = .ok s

/-- `CoGBackend.find_tile_by_id(tile_id)`: `return [tile_id]`. -/
def cog_find_tile_by_id (tile_id : String) : List String := [tile_id]

/-- `CoGBackend.find_tiles_by_id(tile_ids, ds=None)`: `return tile_ids`. -/
def cog_find_tiles_by_id (tile_ids : List String) : List String := tile_ids

/-- Insertion step of `np.unique`'s value sort. -/
def insertSorted (x : ℤ) : List ℤ → List ℤ
  | [] => [x]
  | y :: ys => if x ≤ y then x :: y :: ys else y :: insertSorted x ys

/-- Ascending sort of a value list. -/
def sortInts (l : List ℤ) : List ℤ := l.foldr insertSorted []

/-- `np.unique`: the distinct values of a list, sorted ascending. -/
def npUnique (l : List ℤ) : List ℤ := (sortInts l).dedup

/-- Extract the payload of a successful decode (used to name concrete
reconstruction results; the accompanying theorems separately prove that the
decode really is successful). -/
def forceOk (x : Except PyError TileTuple) : TileTuple :=
  match x with
  | .ok r => r
  | .error _ => default

/-- The shape invariant claimed by the spec for the tuple returned by
`get_lat_lon_time_data_meta`:
`data.shape == (len(times), len(latitudes), len(longitudes))`
(numpy `len` of an array is its leading dimension). -/
def shapeInvariant (res : TileTuple) : Prop :=
  res.data.shape = [res.times.length, res.latitudes.shape.headD 0, res.longitudes.shape.headD 0]

instance (res : TileTuple) : Decidable (shapeInvariant res) := by
  unfold shapeInvariant
  infer_instance

/-- Claim C1 as stated: every successfully reconstructed tile tuple satisfies
the shape invariant, whatever the source encoding. -/
def claimC1 : Prop :=
  ∀ td res, get_lat_lon_time_data_meta td = .ok res → shapeInvariant res

/-- The number of encoding fields present on a stored record. -/
def tagCount (td : TileData) : ℕ :=
  (if td.grid_tile.isSome then 1 else 0) +
  (if td.swath_tile.isSome then 1 else 0) +
  (if td.time_series_tile.isSome then 1 else 0)

/-- Claim C4 as stated: a record matching zero or more than one encoding tag
fails to decode with a `CorruptTileError`. -/
def claimC4 : Prop :=
  ∀ td, tagCount td ≠ 1 → get_lat_lon_time_data_meta td = .error .corruptTileError

/-- A record with no encoding field set. -/
def emptyTD : TileData := ⟨none, none, none⟩

/-- C4 counterexample: on a record matching zero encodings the code raises
`NotImplementedError` (the source's final `else` branch), not
`CorruptTileError`; the claim is false at this record. -/
theorem claim_C4_counterexample :
    tagCount emptyTD = 0 ∧
    get_lat_lon_time_data_meta emptyTD = .error .notImplementedError ∧
    get_lat_lon_time_data_meta emptyTD ≠ .error .corruptTileError ∧
    ¬ claimC4 := by
  refine ⟨rfl, rfl, ?_, ?_⟩
  · intro h
    have h2 : PyError.notImplementedError = PyError.corruptTileError := by
      have h0 : get_lat_lon_time_data_meta emptyTD = .error .notImplementedError := rfl
      rw [h0] at h
      exact Except.error.inj h
    exact absurd h2 (by decide)
  · intro h
    have h2 := h emptyTD (by decide)
    have h0 : get_lat_lon_time_data_meta emptyTD = .error .notImplementedError := rfl
    rw [h0] at h2
    have h3 := Except.error.inj h2
    exact absurd h3 (by decide)

/-- A grid tile with both `grid_tile` and `swath_tile` set (two tags). -/
def twoTagTD : TileData :=
  ⟨some ⟨⟨[1], [some 0]⟩, ⟨[1], [some 0]⟩, 7, ⟨[1, 1], [some 3]⟩, []⟩,
   some ⟨⟨[1], [some 0]⟩, ⟨[1], [some 0]⟩, ⟨[1], [some 0]⟩, ⟨[1, 1], [some 3]⟩, []⟩,
   none⟩

/-- C4 amended: a record with none of the three encoding fields raises
`NotImplementedError` (not `CorruptTileError`), and a record with several
fields set is decoded by the first matching branch in the source's order
(`grid_tile`, then `swath_tile`, then `time_series_tile`) without any
error being raised for the multiplicity. -/
theorem claim_C4_amended :
    (∀ td, td.grid_tile = none → td.swath_tile = none → td.time_series_tile = none →
      get_lat_lon_time_data_meta td = .error .notImplementedError) ∧
    (∀ td g, td.grid_tile = some g → get_lat_lon_time_data_meta td = decodeGrid g) ∧
    (∀ td s, td.grid_tile = none → td.swath_tile = some s →
      get_lat_lon_time_data_meta td = decodeSwath s) ∧
    (∀ td t, td.grid_tile = none → td.swath_tile = none → td.time_series_tile = some t →
      get_lat_lon_time_data_meta td = decodeTimeSeries t) := by
  refine ⟨?_, ?_, ?_, ?_⟩ <;>
    · intro td
      obtain ⟨gt, st, tt⟩ := td
      intros
      simp_all [get_lat_lon_time_data_meta]

/-- C4 amended witness: the amended dispatch rules evaluated at the two-tag
record (decoded by the grid branch) and at the empty record. -/
theorem claim_C4_amended_witness :
    (twoTagTD.grid_tile =
      some ⟨⟨[1], [some 0]⟩, ⟨[1], [some 0]⟩, 7, ⟨[1, 1], [some 3]⟩, []⟩ ∧
     get_lat_lon_time_data_meta twoTagTD =
      decodeGrid ⟨⟨[1], [some 0]⟩, ⟨[1], [some 0]⟩, 7, ⟨[1, 1], [some 3]⟩, []⟩) ∧
    (emptyTD.grid_tile = none ∧ emptyTD.swath_tile = none ∧
     emptyTD.time_series_tile = none ∧
     get_lat_lon_time_data_meta emptyTD = .error .notImplementedError) :=
  ⟨⟨rfl, claim_C4_amended.2.1 twoTagTD _ rfl⟩,
   ⟨rfl, rfl, rfl, claim_C4_amended.1 emptyTD rfl rfl rfl⟩⟩

/-- C5: the three-clause Solr time filter of `find_tiffs_in_date_range` is
equivalent, for a bounded query interval `start ≤ end` and a well-formed tile
interval `tmin ≤ tmax`, to the plain interval-overlap condition
`tmin ≤ end AND start ≤ tmax`. -/
theorem claim_C5_time_clause_iff_overlap (start_t end_t tmin tmax : ℤ)
    (hq : start_t ≤ end_t) (ht : tmin ≤ tmax) :
    find_tiffs_time_clause start_t end_t tmin tmax = true ↔
      (tmin ≤ end_t ∧ start_t ≤ tmax) := by
  simp only [find_tiffs_time_clause, solrRange, Bool.or_eq_true, Bool.and_eq_true,
    decide_eq_true_eq]
  omega

/-- C5 witness: the overlap equivalence at the concrete query interval
`[0, 10]` and tile interval `[2, 3]`. -/
theorem claim_C5_witness :
    (0 : ℤ) ≤ 10 ∧ (2 : ℤ) ≤ 3 ∧
    (find_tiffs_time_clause 0 10 2 3 = true ↔ ((2 : ℤ) ≤ 10 ∧ (0 : ℤ) ≤ 3)) :=
  ⟨by decide, by decide, claim_C5_time_clause_iff_overlap 0 10 2 3 (by decide) (by decide)⟩

/-- No COG tile id is derivable from the creation path: `__to_url` raises
`NotImplementedError` on every input. -/
theorem no_derived_cog_id (s : String) : ¬ isDerivedCoGId s := by
  rintro ⟨ds, kw, h⟩
  exact absurd h (by simp [cog_to_url])

/-- Claim C8 as stated: for a string that is not a creation-path-derived id,
`find_tile_by_id` does not succeed by returning that string as a found id. -/
def claimC8 : Prop :=
  ∀ s, ¬ isDerivedCoGId s → ¬ (s ∈ cog_find_tile_by_id s)

/-- C8 counterexample: `find_tile_by_id` echoes back any arbitrary string
(the body is `return [tile_id]` with no validation), even though no id is
derivable from the creation path, so the claim fails at the arbitrary string
"not-a-real-tile". -/
theorem claim_C8_counterexample :
    ¬ isDerivedCoGId "not-a-real-tile" ∧
    cog_find_tile_by_id "not-a-real-tile" = ["not-a-real-tile"] ∧
    ¬ claimC8 := by
  refine ⟨no_derived_cog_id _, rfl, ?_⟩
  intro h
  exact h "not-a-real-tile" (no_derived_cog_id _) (by simp [cog_find_tile_by_id])

/-- C8 amended: the COG backend's id lookups perform no validation at all:
`find_tile_by_id` returns the singleton of its argument and
`find_tiles_by_id` returns its argument unchanged, for every input; and the
creation path derives no id at all, since `__to_url` always raises
`NotImplementedError`. -/
theorem claim_C8_amended :
    (∀ s, cog_find_tile_by_id s = [s]) ∧
    (∀ l, cog_find_tiles_by_id l = l) ∧
    (∀ ds kw, cog_to_url ds kw = .error .notImplementedError) :=
  ⟨fun _ => rfl, fun _ => rfl, fun _ _ => rfl⟩

/-- C9: constructing the COG-backend `SolrProxy` always raises `TypeError`:
`__init__` invokes `super(self, config)` whose first argument is the instance
`self` rather than a type, so no instance is ever produced (and hence the
query methods of this class are unreachable through normal construction). -/
theorem claim_C9_init_always_type_error (config : List (String × String)) :
    cog_SolrProxy_init config = .error .typeError := rfl

/-- The fetch loop returns, in id order, the first stored record of each id
that has one. -/
theorem fetchLoop_eq_filterMap (store : TileStore) (ids : List String) :
    fetchLoop store ids = ids.filterMap (fun tid => (tileFilterResults store tid).head?) := by
  induction ids with
  | nil => rfl
  | cons tid rest ih =>
    simp only [fetchLoop, List.filterMap_cons]
    cases h : tileFilterResults store tid with
    | nil => simp [h, ih]
    | cons r rs => simp [h, ih]

/-- Claim C6 as stated: the result of `fetch_nexus_tiles` contains exactly
one record per requested id that is present in the store, in request order
(ids with no stored record are skipped), regardless of the runtime type of
the argument carrying the id. -/
def claimC6 : Prop :=
  ∀ (store : TileStore) (args : List TileIdArg),
    fetch_nexus_tiles store args =
      args.filterMap (fun a => (tileFilterResults store a.idStr).head?)

/-- C6 counterexample: a requested id that IS present in the store but is
passed as a non-string object (e.g. a `uuid.UUID`) is silently dropped by the
`isinstance(tile_id, str) or isinstance(tile_id, unicode)` filter, so its
record is missing from the result and the claim fails. -/
theorem claim_C6_counterexample :
    fetch_nexus_tiles [("a1", 7)] [.nonStr "a1"] = [] ∧
    tileFilterResults [("a1", 7)] "a1" = [("a1", 7)] ∧
    ¬ claimC6 := by
  refine ⟨by decide, by decide, ?_⟩
  intro h
  exact absurd (h [("a1", 7)] [.nonStr "a1"]) (by decide)

/-- C6 amended: only string-typed arguments are looked up; the result
contains, in request order, the first stored record of each string-typed
requested id that is present in the store; a string id with no stored record
is skipped without raising and without affecting the remaining ids. -/
theorem claim_C6_amended :
    (∀ (store : TileStore) (args : List TileIdArg),
      fetch_nexus_tiles store args =
        ((args.filter TileIdArg.isStr).map TileIdArg.idStr).filterMap
          (fun tid => (tileFilterResults store tid).head?)) ∧
    (∀ (store : TileStore) (xs ys : List TileIdArg) (tid : String),
      tileFilterResults store tid = [] →
      fetch_nexus_tiles store (xs ++ TileIdArg.str tid :: ys) =
        fetch_nexus_tiles store (xs ++ ys)) := by
  constructor
  · intro store args
    simp [fetch_nexus_tiles, fetchLoop_eq_filterMap]
  · intro store xs ys tid h
    simp [fetch_nexus_tiles, fetchLoop_eq_filterMap, List.filter_append,
      TileIdArg.isStr, List.map_append, List.filterMap_append, TileIdArg.idStr, h]

/-- C6 amended witness: with record "b2" stored and "zz" absent, requesting
["b2", "zz"] yields the same result as requesting ["b2"] alone. -/
theorem claim_C6_amended_witness :
    tileFilterResults [("b2", 9)] "zz" = [] ∧
    fetch_nexus_tiles [("b2", 9)] ([TileIdArg.str "b2"] ++ TileIdArg.str "zz" :: []) =
      fetch_nexus_tiles [("b2", 9)] ([TileIdArg.str "b2"] ++ []) :=
  ⟨by decide, claim_C6_amended.2 [("b2", 9)] [TileIdArg.str "b2"] [] "zz" (by decide)⟩

/-- C10: only string-typed arguments of `fetch_nexus_tiles` are looked up in
the store — the result is unchanged if the non-string arguments are removed
beforehand — and a call whose arguments are all non-strings returns the
empty list. -/
theorem claim_C10_only_strings_looked_up :
    (∀ (store : TileStore) (args : List TileIdArg),
      fetch_nexus_tiles store args = fetch_nexus_tiles store (args.filter TileIdArg.isStr)) ∧
    (∀ (store : TileStore) (args : List TileIdArg),
      (∀ a ∈ args, a.isStr = false) → fetch_nexus_tiles store args = []) := by
  constructor
  · intro store args
    simp [fetch_nexus_tiles, List.filter_filter]
  · intro store args h
    have h2 : args.filter TileIdArg.isStr = [] := by
      rw [List.filter_eq_nil_iff]
      intro a ha
      simp [h a ha]
    simp [fetch_nexus_tiles, h2, fetchLoop]

/-- C10 witness: a call whose single argument is a non-string object whose
id is present in the store still returns the empty list. -/
theorem claim_C10_witness :
    (∀ a ∈ [TileIdArg.nonStr "a1"], a.isStr = false) ∧
    fetch_nexus_tiles [("a1", 7)] [TileIdArg.nonStr "a1"] = [] :=
  ⟨by decide, claim_C10_only_strings_looked_up.2 [("a1", 7)] [TileIdArg.nonStr "a1"] (by decide)⟩

/-- Head of the key-ascending sort: it exists for a non-empty list, belongs
to the list, and minimises the key. -/
theorem sortByKey_head_min (key : SolrDoc → ℤ) (l : List SolrDoc) (h : l ≠ []) :
    ∃ d rest, sortByKey key l = d :: rest ∧ d ∈ l ∧ ∀ x ∈ l, key d ≤ key x := by
  induction l with
  | nil => exact absurd rfl h
  | cons x ls ih =>
    cases ls with
    | nil => exact ⟨x, [], rfl, by simp, by simp⟩
    | cons y ys =>
      obtain ⟨d, rest, hs, hmem, hmin⟩ := ih (by simp)
      have hstep : sortByKey key (x :: y :: ys) = insertByKey key x (sortByKey key (y :: ys)) := rfl
      rw [hs] at hstep
      by_cases hc : key x ≤ key d
      · refine ⟨x, d :: rest, ?_, by simp, ?_⟩
        · rw [hstep]; simp [insertByKey, hc]
        · intro z hz
          rcases List.mem_cons.mp hz with h1 | h2
          · simp [h1]
          · exact le_trans hc (hmin z h2)
      · refine ⟨d, insertByKey key x rest, ?_, List.mem_cons_of_mem _ hmem, ?_⟩
        · rw [hstep]; simp [insertByKey, hc]
        · intro z hz
          rcases List.mem_cons.mp hz with h1 | h2
          · subst h1; omega
          · exact hmin z h2

/-- Claim C7 as stated: a dataset with zero indexed tiles makes
`date_range_for_dataset` fail with the distinct, named `NotFoundError`. -/
def claimC7 : Prop :=
  ∀ docs : List SolrDoc, docs = [] → date_range_for_dataset docs = .error .notFoundError

/-- C7 counterexample: with zero tiles the first `rows=1` query returns no
documents and `results[0]['max_time_dt']` raises a plain `IndexError`, not a
`NotFoundError`; the claim fails at the empty index. -/
theorem claim_C7_counterexample :
    date_range_for_dataset [] = .error .indexError ∧
    date_range_for_dataset [] ≠ .error .notFoundError ∧
    ¬ claimC7 := by
  have h0 : date_range_for_dataset ([] : List SolrDoc) = .error .indexError := rfl
  refine ⟨h0, ?_, ?_⟩
  · intro h
    exact absurd (Except.error.inj (h0.symm.trans h)) (by decide)
  · intro h
    exact absurd (Except.error.inj (h0.symm.trans (h [] rfl))) (by decide)

/-- C7 amended: with zero tiles `date_range_for_dataset` raises `IndexError`
(see the counterexample); with at least one tile it returns the pair
`(min_time, max_time)` taken from the single-row queries sorted ascending on
`min_time_dt` and descending on `max_time_dt` — i.e. the least `min_time_dt`
and the greatest `max_time_dt` over the dataset's documents. -/
theorem claim_C7_amended (docs : List SolrDoc) (h : docs ≠ []) :
    ∃ mn mx, date_range_for_dataset docs = .ok (mn, mx) ∧
      (∃ d ∈ docs, d.min_time_dt = mn) ∧ (∃ d ∈ docs, d.max_time_dt = mx) ∧
      ∀ d ∈ docs, mn ≤ d.min_time_dt ∧ d.max_time_dt ≤ mx := by
  obtain ⟨d1, r1, hs1, hm1, hmin1⟩ := sortByKey_head_min (fun d => -d.max_time_dt) docs h
  obtain ⟨d2, r2, hs2, hm2, hmin2⟩ := sortByKey_head_min (fun d => d.min_time_dt) docs h
  refine ⟨d2.min_time_dt, d1.max_time_dt, ?_, ⟨d2, hm2, rfl⟩, ⟨d1, hm1, rfl⟩, ?_⟩
  · simp [date_range_for_dataset, do_query, hs1, hs2, pyIndex0]
  · intro d hd
    have h1 := hmin1 d hd
    have h2 := hmin2 d hd
    constructor
    · exact h2
    · omega

/-- C7 amended witness: the date range of the concrete two-document index
`[(1,10), (0,5)]`. -/
theorem claim_C7_amended_witness :
    ([⟨1, 10⟩, ⟨0, 5⟩] : List SolrDoc) ≠ [] ∧
    (∃ mn mx, date_range_for_dataset [⟨1, 10⟩, ⟨0, 5⟩] = .ok (mn, mx) ∧
      (∃ d ∈ ([⟨1, 10⟩, ⟨0, 5⟩] : List SolrDoc), d.min_time_dt = mn) ∧
      (∃ d ∈ ([⟨1, 10⟩, ⟨0, 5⟩] : List SolrDoc), d.max_time_dt = mx) ∧
      ∀ d ∈ ([⟨1, 10⟩, ⟨0, 5⟩] : List SolrDoc), mn ≤ d.min_time_dt ∧ d.max_time_dt ≤ mx) :=
  ⟨by decide, claim_C7_amended [⟨1, 10⟩, ⟨0, 5⟩] (by decide)⟩

/-- A successful `pyLenM` returns the leading dimension. -/
theorem pyLenM_ok {a : MaskedND} {n : ℕ} (h : pyLenM a = .ok n) :
    a.shape.headD 0 = n := by
  cases hs : a.shape with
  | nil => rw [pyLenM, hs] at h; exact absurd h (by simp)
  | cons m rest => rw [pyLenM, hs] at h; simpa using Except.ok.inj h

/-- A successful `_to_standard_index` always produces an array of exactly the
desired `(d0, d1, d2)` shape (the first branch's trailing `np.newaxis` makes
its 2-D `(d1, d2)` result `(1, d1, d2) = (d0, d1, d2)` since `d0 = 1` there). -/
theorem tsi_ok_shape {da : MaskedND} {d0 d1 d2 : ℕ} {out : OutArray}
    (h : to_standard_index da d0 d1 d2 = .ok out) : out.shape = [d0, d1, d2] := by
  simp only [to_standard_index] at h
  split_ifs at h with h1 h2 h3 h4 h5 h6 <;>
    first
    | (rw [← Except.ok.inj h]; simp [h2])
    | rw [← Except.ok.inj h]

/-- Every successful swath decode satisfies the shape invariant: the data
array's desired shape is built from exactly the lengths of the returned
(simplified) time array and the returned flattened latitude/longitude
arrays. -/
theorem decodeSwath_ok_invariant {s : SwathTile} {res : TileTuple}
    (h : decodeSwath s = .ok res) : shapeInvariant res := by
  simp only [decodeSwath] at h
  split at h
  · exact absurd h (by simp)
  · rename_i time_data hcol
    split at h
    · exact absurd h (by simp)
    · rename_i tile_data htsi
      split at h
      · exact absurd h (by simp)
      · rename_i meta hmeta
        rw [← Except.ok.inj h]
        simp only [shapeInvariant]
        rw [tsi_ok_shape htsi]
        simp [reshapeFlat]

/-- Every successful time-series decode satisfies the shape invariant: the
allocation is `(len(time), len(lat), len(lon))` and exactly these arrays are
returned alongside it. -/
theorem decodeTimeSeries_ok_invariant {t : TimeSeriesTile} {res : TileTuple}
    (h : decodeTimeSeries t = .ok res) : shapeInvariant res := by
  simp only [decodeTimeSeries] at h
  split at h
  next => exact absurd h (by simp)
  next nLat hlat =>
    split at h
    next => exact absurd h (by simp)
    next nLon hlon =>
      split at h
      next hle =>
        split at h
        next => exact absurd h (by simp)
        next bc hbc =>
          split at h
          next => exact absurd h (by simp)
          next meta hmeta =>
            rw [← Except.ok.inj h]
            simp only [shapeInvariant, diag3, reshapeFlat]
            rw [pyLenM_ok hlat, pyLenM_ok hlon]
      next hle => exact absurd h (by simp)

/-- The grid-record side condition under which the shape invariant holds:
the stored data array is 2-D with shape `(len(lat), len(lon))`, or 3-D with
shape `(1, len(lat), len(lon))`. -/
def gridShapeOk (g : GridTile) : Prop :=
  g.variable_data.shape = [g.latitude.shape.headD 0, g.longitude.shape.headD 0] ∨
  g.variable_data.shape = [1, g.latitude.shape.headD 0, g.longitude.shape.headD 0]

/-- A grid tile whose stored 3-D data has a leading (time) extent of 2 while
the returned `times` is always the single-element `np.array([grid_tile.time])`. -/
def c1BadGrid : GridTile :=
  ⟨⟨[1], [some 0]⟩, ⟨[1], [some 0]⟩, 7, ⟨[2, 1, 1], [some 1, some 2]⟩, []⟩

/-- The stored record holding `c1BadGrid`. -/
def c1BadTD : TileData := ⟨some c1BadGrid, none, none⟩

/-- The (successful) reconstruction of `c1BadTD`. -/
def c1BadRes : TileTuple := forceOk (get_lat_lon_time_data_meta c1BadTD)

/-- C1 counterexample: the grid branch never checks the stored data shape
against the coordinate lengths — a grid record with 3-D data of leading
extent 2 decodes successfully into `data.shape = (2, 1, 1)` while
`(len(times), len(lat), len(lon)) = (1, 1, 1)`, so the claimed invariant
fails. -/
theorem claim_C1_counterexample :
    get_lat_lon_time_data_meta c1BadTD = .ok c1BadRes ∧
    c1BadRes.data.shape = [2, 1, 1] ∧
    c1BadRes.times.length = 1 ∧
    c1BadRes.latitudes.shape.headD 0 = 1 ∧
    c1BadRes.longitudes.shape.headD 0 = 1 ∧
    ¬ shapeInvariant c1BadRes ∧
    ¬ claimC1 := by
  refine ⟨rfl, by decide, by decide, by decide, by decide, by decide, ?_⟩
  intro h
  exact absurd (h c1BadTD c1BadRes rfl) (by decide)

/-- C1 amended: whenever `get_lat_lon_time_data_meta` succeeds, the returned
tuple satisfies `data.shape = (len(times), len(latitudes), len(longitudes))`
unconditionally for swath and time-series records, and for grid records
provided the stored data array is 2-D of shape `(len(lat), len(lon))` or 3-D
of shape `(1, len(lat), len(lon))`. -/
theorem claim_C1_amended (td : TileData) (res : TileTuple)
    (h : get_lat_lon_time_data_meta td = .ok res)
    (hg : ∀ g, td.grid_tile = some g → gridShapeOk g) :
    shapeInvariant res := by
  obtain ⟨gt, st, tt⟩ := td
  cases gt with
  | some g =>
    have hge := hg g rfl
    simp only [get_lat_lon_time_data_meta, decodeGrid] at h
    rw [← Except.ok.inj h]
    rcases hge with hge | hge <;>
      · simp only [shapeInvariant, gridOut, maskMI, hge]
        simp
  | none =>
    cases st with
    | some s =>
      simp only [get_lat_lon_time_data_meta] at h
      exact decodeSwath_ok_invariant h
    | none =>
      cases tt with
      | some t =>
        simp only [get_lat_lon_time_data_meta] at h
        exact decodeTimeSeries_ok_invariant h
      | none => exact absurd h (by simp [get_lat_lon_time_data_meta])

/-- A well-shaped grid record: 3-D data `(1, 1, 1)` matching its length-1
coordinate axes. -/
def c1GoodGrid : GridTile :=
  ⟨⟨[1], [some 0]⟩, ⟨[1], [some 0]⟩, 7, ⟨[1, 1, 1], [some 3]⟩, []⟩

/-- The stored record holding `c1GoodGrid`. -/
def c1GoodTD : TileData := ⟨some c1GoodGrid, none, none⟩

/-- The reconstruction of `c1GoodTD`. -/
def c1GoodRes : TileTuple := forceOk (get_lat_lon_time_data_meta c1GoodTD)

/-- C1 amended witness: the invariant holds at the concrete well-shaped grid
record. -/
theorem claim_C1_amended_witness :
    get_lat_lon_time_data_meta c1GoodTD = .ok c1GoodRes ∧
    (∀ g, c1GoodTD.grid_tile = some g → gridShapeOk g) ∧
    shapeInvariant c1GoodRes := by
  have hg : ∀ g, c1GoodTD.grid_tile = some g → gridShapeOk g := by
    intro g hgeq
    have h2 : c1GoodGrid = g := Option.some.inj hgeq
    rw [← h2]
    right
    decide
  exact ⟨rfl, hg, claim_C1_amended c1GoodTD c1GoodRes rfl hg⟩

/-- The decoded values of a stored array's cells (after `masked_invalid`). -/
def rawVals (a : RawND) : List ℤ := (maskMI a).flat.map Cell.val

/-- The grid row claimed for observation `k`: the index of `latitudes[k]` in
the sorted-unique latitude values. -/
def swathLatIdx (s : SwathTile) (k : ℕ) : ℕ :=
  (npUnique (rawVals s.latitude)).indexOf ((rawVals s.latitude).getD k 0)

/-- The grid column claimed for observation `k`: the index of
`longitudes[k]` in the sorted-unique longitude values. -/
def swathLonIdx (s : SwathTile) (k : ℕ) : ℕ :=
  (npUnique (rawVals s.longitude)).indexOf ((rawVals s.longitude).getD k 0)

/-- Claim C2 as stated: swath reconstruction places each observation `k` at
`[0, i, j]` with `i`/`j` the indices of `latitudes[k]`/`longitudes[k]` in the
sorted-unique coordinate lists, and masks every cell not backed by an
observation under that mapping. -/
def claimC2 : Prop :=
  ∀ (td : TileData) (s : SwathTile) (res : TileTuple),
    td.grid_tile = none → td.swath_tile = some s →
    get_lat_lon_time_data_meta td = .ok res →
    (∀ k, k < s.variable_data.flat.length →
      res.data.cell [0, swathLatIdx s k, swathLonIdx s k] =
        maskInvalid (s.variable_data.flat.getD k none)) ∧
    (∀ i j, i < res.latitudes.flat.length → j < res.longitudes.flat.length →
      (¬ ∃ k, k < s.variable_data.flat.length ∧ swathLatIdx s k = i ∧ swathLonIdx s k = j) →
      (res.data.cell [0, i, j]).mask = true)

/-- A swath record with two observations: (lat 20, lon 30, value 1) and
(lat 10, lon 40, value 2), both at time 5. -/
def c2Swath : SwathTile :=
  ⟨⟨[2], [some 20, some 10]⟩, ⟨[2], [some 30, some 40]⟩,
   ⟨[2], [some 5, some 5]⟩, ⟨[1, 2], [some 1, some 2]⟩, []⟩

/-- The stored record holding `c2Swath`. -/
def c2TD : TileData := ⟨none, some c2Swath, none⟩

/-- The (successful) reconstruction of `c2TD`. -/
def c2Res : TileTuple := forceOk (get_lat_lon_time_data_meta c2TD)

/-- C2 counterexample: the code (`_to_standard_index`) writes observation `k`
onto the diagonal `[0, k, k]` via `np.diag_indices` — it never extracts
distinct coordinate values nor matches them by equality.  For `c2Swath`,
observation 0 (lat 20, lon 30) should land at `[0, 1, 0]` under the claimed
sorted-unique mapping, but that cell is masked; the code put it at
`[0, 0, 0]` instead. -/
theorem claim_C2_counterexample :
    get_lat_lon_time_data_meta c2TD = .ok c2Res ∧
    swathLatIdx c2Swath 0 = 1 ∧
    swathLonIdx c2Swath 0 = 0 ∧
    c2Res.data.cell [0, 1, 0] = maskedCell ∧
    c2Res.data.cell [0, 0, 0] = ⟨1, false⟩ ∧
    ¬ claimC2 := by
  refine ⟨rfl, by decide, by decide, by decide, by decide, ?_⟩
  intro h
  obtain ⟨h1, _⟩ := h c2TD c2Swath c2Res rfl rfl rfl
  exact absurd (h1 0 (by decide)) (by decide)

/-- Folding `min` over a list of copies of the seed returns the seed. -/
theorem foldl_min_const (q : ℤ) (m : List ℤ) (h : ∀ x ∈ m, x = q) :
    m.foldl min q = q := by
  induction m with
  | nil => rfl
  | cons x xs ih =>
    rw [List.foldl_cons, h x (List.mem_cons_self x xs), min_self]
    exact ih fun y hy => h y (List.mem_cons_of_mem _ hy)

/-- The time simplification on a non-empty, all-equal, all-valid time array
collapses it to the single shared value. -/
theorem collapseTime_const (q : ℤ) (l : List Cell) (hne : l ≠ [])
    (hall : ∀ c ∈ l, c = ⟨q, false⟩) : collapseTime l = .ok [⟨q, false⟩] := by
  have hfil : l.filter (fun c => !c.mask) = l := by
    rw [List.filter_eq_self]
    intro c hc
    rw [hall c hc]
    rfl
  obtain ⟨c0, rest, rfl⟩ := List.exists_cons_of_ne_nil hne
  have hc0 : c0 = ⟨q, false⟩ := hall c0 (List.mem_cons_self _ _)
  have hfold : (rest.map Cell.val).foldl min q = q := by
    apply foldl_min_const
    intro x hx
    obtain ⟨c, hcmem, rfl⟩ := List.mem_map.mp hx
    rw [hall c (List.mem_cons_of_mem _ hcmem)]
  have hmin : npMinMasked (c0 :: rest) = .ok ⟨q, false⟩ := by
    rw [npMinMasked, if_neg (by simp), hfil]
    simp only [List.map_cons, hc0, hfold]
  rw [collapseTime, hmin]
  simp only [Bool.false_eq_true, if_neg]
  have hallb : (c0 :: rest).all (fun c => c.mask || c.val == q) = true := by
    rw [List.all_eq_true]
    intro c hc
    rw [hall c hc]
    simp
  simp [hallb]

/-- First branch of `_to_standard_index` (`desired_shape[0] = 1`) on a 2-D
source whose size equals `d1 ≤ d2`: the result is `(1, d1, d2)` with the
flattened source (value and mask) on the diagonal and everything else
masked. -/
theorem tsi_first {da : MaskedND} {d1 d2 : ℕ}
    (hsh : da.shape.length = 2) (hle : d1 ≤ d2) (hS : da.flat.length = d1) :
    ∃ out, to_standard_index da 1 d1 d2 = .ok out ∧ out.shape = [1, d1, d2] ∧
      ∀ t i j, out.cell [t, i, j] =
        if i = j ∧ i < d1 then da.flat.getD i maskedCell else maskedCell := by
  simp only [to_standard_index, hsh, if_pos, hle, if_true]
  rw [if_pos (Or.inl hS)]
  refine ⟨_, rfl, rfl, ?_⟩
  intro t i j
  simp only [OutArray.cell]
  simp [tsiCell, hS]

/-- Element access through `masked_invalid`. -/
theorem getD_map_maskInvalid (l : List RawVal) (k : ℕ) (hk : k < l.length) :
    (l.map maskInvalid).getD k maskedCell = maskInvalid (l.getD k none) := by
  rw [List.getD_eq_getElem?_getD, List.getD_eq_getElem?_getD, List.getElem?_map,
    List.getElem?_eq_getElem hk]
  rfl

/-- C2 amended: for a swath record with N observations (2-D data of size N,
flattened lat/lon of length N, a non-empty all-equal valid time array, and no
auxiliary variables), reconstruction places observation `k` (value and
`masked_invalid` mask) on the diagonal cell `[0, k, k]` — row = column =
flattened sample index, not a sorted-unique coordinate lookup — and every
off-diagonal cell is masked; consequently each unmasked cell equals its
source observation. -/
theorem claim_C2_amended (s : SwathTile) (N : ℕ) (q : ℤ)
    (hvshape : s.variable_data.shape = [1, N])
    (hvlen : s.variable_data.flat.length = N)
    (hlat : s.latitude.flat.length = N)
    (hlon : s.longitude.flat.length = N)
    (htne : s.time.flat ≠ [])
    (htall : ∀ r ∈ s.time.flat, r = some q)
    (hmeta : s.meta_data = []) :
    ∃ res, get_lat_lon_time_data_meta ⟨none, some s, none⟩ = .ok res ∧
      res.times = [⟨q, false⟩] ∧
      res.data.shape = [1, N, N] ∧
      (∀ k, k < N → res.data.cell [0, k, k] = maskInvalid (s.variable_data.flat.getD k none)) ∧
      (∀ i j, i < N → j < N → i ≠ j → (res.data.cell [0, i, j]).mask = true) := by
  have hcol : collapseTime (reshapeFlat (maskMI s.time)).flat = .ok [⟨q, false⟩] := by
    apply collapseTime_const q
    · simp only [reshapeFlat, maskMI]
      simpa using htne
    · intro c hc
      simp only [reshapeFlat, maskMI] at hc
      obtain ⟨r, hrmem, rfl⟩ := List.mem_map.mp hc
      rw [htall r hrmem]
      rfl
  have hlat2 : (reshapeFlat (maskMI s.latitude)).flat.length = N := by
    simp [reshapeFlat, maskMI, hlat]
  have hlon2 : (reshapeFlat (maskMI s.longitude)).flat.length = N := by
    simp [reshapeFlat, maskMI, hlon]
  have hsh : (maskMI s.variable_data).shape.length = 2 := by
    simp [maskMI, hvshape]
  have hS : (maskMI s.variable_data).flat.length = N := by
    simp [maskMI, hvlen]
  obtain ⟨out, hout, houtsh, houtcell⟩ := tsi_first hsh (le_refl N) hS
  have hdec : decodeSwath s =
      .ok ⟨reshapeFlat (maskMI s.latitude), reshapeFlat (maskMI s.longitude),
           [⟨q, false⟩], out, []⟩ := by
    simp only [decodeSwath]
    rw [hcol]
    simp only [List.length_cons, List.length_nil, hlat2, hlon2]
    rw [hout, hmeta]
    simp [swathMeta]
  refine ⟨_, by exact hdec, rfl, houtsh, ?_, ?_⟩
  · intro k hk
    rw [houtcell 0 k k, if_pos ⟨rfl, hk⟩]
    simp only [maskMI]
    exact getD_map_maskInvalid s.variable_data.flat k (by rw [hvlen]; exact hk)
  · intro i j hi hj hij
    rw [houtcell 0 i j, if_neg (by tauto)]
    rfl

/-- C2 amended witness: the diagonal placement evaluated on the concrete
two-observation swath record `c2Swath`. -/
theorem claim_C2_amended_witness :
    c2Swath.variable_data.shape = [1, 2] ∧
    c2Swath.variable_data.flat.length = 2 ∧
    c2Swath.latitude.flat.length = 2 ∧
    c2Swath.longitude.flat.length = 2 ∧
    c2Swath.time.flat ≠ [] ∧
    (∀ r ∈ c2Swath.time.flat, r = some 5) ∧
    c2Swath.meta_data = [] ∧
    (∃ res, get_lat_lon_time_data_meta ⟨none, some c2Swath, none⟩ = .ok res ∧
      res.times = [⟨5, false⟩] ∧
      res.data.shape = [1, 2, 2] ∧
      (∀ k, k < 2 → res.data.cell [0, k, k] =
        maskInvalid (c2Swath.variable_data.flat.getD k none)) ∧
      (∀ i j, i < 2 → j < 2 → i ≠ j → (res.data.cell [0, i, j]).mask = true)) :=
  ⟨by decide, by decide, by decide, by decide, by decide, by decide, rfl,
   claim_C2_amended c2Swath 2 5 (by decide) (by decide) (by decide) (by decide)
     (by decide) (by decide) rfl⟩

/-- Number of unmasked cells of a 3-D output array. -/
def countUnmasked3 (a : OutArray) : ℕ :=
  match a.shape with
  | [tt, ii, jj] =>
    ((List.range tt).map (fun t =>
      ((List.range ii).map (fun i =>
        ((List.range jj).filter (fun j => !(a.cell [t, i, j]).mask)).length)).sum)).sum
  | _ => 0

/-- numpy broadcast of a 1-D source of length `N` onto the `(T, N)`
selection: every row receives the source vector.  (For `N = 1` the leading
size-1 dimension is squeezed and the scalar path is taken, with the same
values.) -/
theorem broadcastTo2_vec {src : MaskedND} {N : ℕ} (T : ℕ)
    (hshape : src.shape = [N]) (hlen : src.flat.length = N) :
    ∃ bc, broadcastTo2 src T N = .ok bc ∧
      ∀ t k, k < N → bc t k = src.flat.getD k maskedCell := by
  rw [broadcastTo2, hshape]
  by_cases hN : N = 1
  · subst hN
    simp only [List.dropWhile]
    refine ⟨_, rfl, ?_⟩
    intro t k hk
    have hk0 : k = 0 := by omega
    rw [hk0]
  · have hbeq : (N == 1) = false := by simp [hN]
    have hdw : (([N] : List ℕ).dropWhile (fun d => d == 1)) = [N] := by
      simp [List.dropWhile, hbeq]
    rw [hdw]
    refine ⟨fun _ k => src.flat.getD k maskedCell, ?_, fun t k _ => rfl⟩
    exact if_pos rfl

/-- Cell access of the diagonal assignment result. -/
theorem diag3_cell (T I J : ℕ) (bc : ℕ → ℕ → Cell) (t i j : ℕ) :
    (diag3 T I J bc).cell [t, i, j] = if i = j ∧ i < I then bc t i else maskedCell := rfl

/-- Counting the unmasked cells of a `(T, I, I)` diagonal assignment whose
assigned values are all unmasked: exactly one cell per row of the `(T, I)`
selection, i.e. `I * T` cells. -/
theorem countUnmasked3_diag (T I : ℕ) (bc : ℕ → ℕ → Cell)
    (hval : ∀ t k, t < T → k < I → (bc t k).mask = false) :
    countUnmasked3 (diag3 T I I bc) = I * T := by
  simp only [countUnmasked3, diag3]
  have hrow : ∀ t ∈ List.range T, ((List.range I).map (fun i =>
      ((List.range I).filter
        (fun j => !(if i = j ∧ i < I then bc t i else maskedCell).mask)).length)).sum = I := by
    intro t ht
    have ht' := List.mem_range.mp ht
    have hcell : ∀ i ∈ List.range I,
        ((List.range I).filter
          (fun j => !(if i = j ∧ i < I then bc t i else maskedCell).mask)).length = 1 := by
      intro i hi
      have hi' := List.mem_range.mp hi
      rw [← List.countP_eq_length_filter]
      have heq : (List.range I).countP
            (fun j => !(if i = j ∧ i < I then bc t i else maskedCell).mask)
          = (List.range I).countP (fun j => j == i) := by
        apply List.countP_congr
        intro j hj
        by_cases hji : i = j
        · subst hji
          rw [if_pos ⟨rfl, hi'⟩, hval t i ht' hi']
          simp
        · rw [if_neg (by tauto)]
          simp only [maskedCell, Bool.not_true, beq_iff_eq]
          constructor
          · intro hfalse
            exact absurd hfalse (by simp)
          · intro hij
            exact absurd hij.symm hji
      rw [heq]
      have hcount : (List.range I).countP (fun j => j == i) = List.count i (List.range I) := by
        rw [List.count]
      rw [hcount]
      exact List.count_eq_one_of_mem (List.nodup_range I) (List.mem_range.mpr hi')
    rw [List.map_congr_left hcell]
    simp
  rw [List.map_congr_left hrow]
  simp [Nat.mul_comm]

/-- C3: for a time-series record with `T` decoded time steps, `N` 1-D
latitude/longitude samples, 1-D data of length `N` whose values are all
valid, and no auxiliary variables, reconstruction yields a `(T, N, N)` array
holding `data[k]` unmasked at `[t, k, k]` for every `t < T`, `k < N`; every
unmasked in-bounds cell lies on the diagonal, and exactly `N * T` cells are
unmasked. -/
theorem claim_C3_time_series_diagonal (ts : TimeSeriesTile) (N T : ℕ)
    (hlat : ts.latitude.shape = [N])
    (hlon : ts.longitude.shape = [N])
    (htime : ts.time.flat.length = T)
    (hdshape : ts.variable_data.shape = [N])
    (hdlen : ts.variable_data.flat.length = N)
    (hdval : ∀ r ∈ ts.variable_data.flat, r.isSome)
    (hmeta : ts.meta_data = []) :
    ∃ res, get_lat_lon_time_data_meta ⟨none, none, some ts⟩ = .ok res ∧
      res.data.shape = [T, N, N] ∧
      (∀ t k, t < T → k < N →
        res.data.cell [t, k, k] = maskInvalid (ts.variable_data.flat.getD k none) ∧
        (res.data.cell [t, k, k]).mask = false) ∧
      (∀ t i j, t < T → i < N → j < N →
        (res.data.cell [t, i, j]).mask = false → i = j) ∧
      countUnmasked3 res.data = N * T := by
  have hplat : pyLenM (maskMI ts.latitude) = .ok N := by
    simp [pyLenM, maskMI, hlat]
  have hplon : pyLenM (maskMI ts.longitude) = .ok N := by
    simp [pyLenM, maskMI, hlon]
  have hT : (reshapeFlat (maskMI ts.time)).flat.length = T := by
    simp [reshapeFlat, maskMI, htime]
  have hbshape : (maskMI ts.variable_data).shape = [N] := by simp [maskMI, hdshape]
  have hblen : (maskMI ts.variable_data).flat.length = N := by simp [maskMI, hdlen]
  obtain ⟨bc, hbc, hbcval⟩ :=
    broadcastTo2_vec ((reshapeFlat (maskMI ts.time)).flat.length) hbshape hblen
  have hvcell : ∀ k, k < N →
      (maskMI ts.variable_data).flat.getD k maskedCell =
        maskInvalid (ts.variable_data.flat.getD k none) := by
    intro k hk
    simp only [maskMI]
    exact getD_map_maskInvalid ts.variable_data.flat k (by rw [hdlen]; exact hk)
  have hbcmask : ∀ t k, k < N → (bc t k).mask = false := by
    intro t k hk
    rw [hbcval t k hk, hvcell k hk]
    have hklen : k < ts.variable_data.flat.length := by rw [hdlen]; exact hk
    have hsome : (ts.variable_data.flat.getD k none).isSome := by
      rw [List.getD_eq_getElem?_getD, List.getElem?_eq_getElem hklen]
      exact hdval _ (List.getElem_mem hklen)
    obtain ⟨v, hv⟩ := Option.isSome_iff_exists.mp hsome
    rw [hv]
    rfl
  have hdec : decodeTimeSeries ts = .ok ⟨maskMI ts.latitude, maskMI ts.longitude,
      (reshapeFlat (maskMI ts.time)).flat,
      diag3 ((reshapeFlat (maskMI ts.time)).flat.length) N N bc, []⟩ := by
    simp only [decodeTimeSeries]
    simp only [hplat, hplon]
    rw [if_pos (le_refl N)]
    simp only [hbc]
    rw [hmeta]
    simp [tsMeta]
  refine ⟨_, by exact hdec, ?_, ?_, ?_, ?_⟩
  · simp only [diag3]
    rw [hT]
  · intro t k ht hk
    rw [diag3_cell, if_pos ⟨rfl, hk⟩, hbcval t k hk, hvcell k hk]
    refine ⟨rfl, ?_⟩
    have := hbcmask t k hk
    rw [hbcval t k hk, hvcell k hk] at this
    exact this
  · intro t i j ht hi hj hmask
    rw [diag3_cell] at hmask
    by_contra hij
    rw [if_neg (by tauto)] at hmask
    exact absurd hmask (by simp [maskedCell])
  · rw [countUnmasked3_diag ((reshapeFlat (maskMI ts.time)).flat.length) N bc
      (fun t k _ hk => hbcmask t k hk), hT]

/-- A time-series record with 2 samples and 3 time steps, all data valid. -/
def c3TS : TimeSeriesTile :=
  ⟨⟨[2], [some 0, some 1]⟩, ⟨[2], [some 2, some 3]⟩,
   ⟨[3], [some 0, some 1, some 2]⟩, ⟨[2], [some 4, some 5]⟩, []⟩

/-- C3 witness: the diagonal property evaluated on the concrete record
`c3TS` (N = 2 samples, T = 3 time steps). -/
theorem claim_C3_witness :
    c3TS.latitude.shape = [2] ∧
    c3TS.longitude.shape = [2] ∧
    c3TS.time.flat.length = 3 ∧
    c3TS.variable_data.shape = [2] ∧
    c3TS.variable_data.flat.length = 2 ∧
    (∀ r ∈ c3TS.variable_data.flat, r.isSome) ∧
    c3TS.meta_data = [] ∧
    (∃ res, get_lat_lon_time_data_meta ⟨none, none, some c3TS⟩ = .ok res ∧
      res.data.shape = [3, 2, 2] ∧
      (∀ t k, t < 3 → k < 2 →
        res.data.cell [t, k, k] = maskInvalid (c3TS.variable_data.flat.getD k none) ∧
        (res.data.cell [t, k, k]).mask = false) ∧
      (∀ t i j, t < 3 → i < 2 → j < 2 →
        (res.data.cell [t, i, j]).mask = false → i = j) ∧
      countUnmasked3 res.data = 2 * 3) :=
  ⟨by decide, by decide, by decide, by decide, by decide, by decide, rfl,
   claim_C3_time_series_diagonal c3TS 2 3 (by decide) (by decide) (by decide)
     (by decide) (by decide) (by decide) rfl⟩
